import Mathlib

/-!
# Verification of the RSUM-for-College ambulance billing core

This file embeds, in Lean 4, the parts of the hospital IGD administration
application that the specification talks about:

* the ambulance tariff engine `calculateAmbulanceTariff` (spec §4.1; the
  module `src/lib/ambulancePricing.ts` itself is not among the available
  sources, only its callers in the visit detail page and the
  `AmbulanceMetadata` / `AmbulanceConfig` declarations in
  `src/types/models.ts`, so the engine is modelled from the spec);
* the Google Maps distance service `calculateDistance`,
  `buildMapsDirectionsUrl` and `formatAddressForAPI`
  (`src/lib/googleMaps.ts`);
* the billing-state handlers of the visit detail page
  (`calculateTotal`, `handleAddService`, `handleRemoveService`,
  `handleAddAmbulanceService`, `handleAddPrescription`,
  `handleRemovePrescription`).

Modelling conventions: JavaScript numbers are embedded as `ℚ` (exact
rationals; the spec demands a decimal-safe representation for all monetary
arithmetic).  A possibly non-finite JavaScript number (`NaN`, `±Infinity`)
is embedded as `Option ℚ` with `none` standing for the non-finite values.
Monetary amounts after rounding to the minor unit of a zero-decimal
currency are integers (`ℤ`).  JavaScript strings are embedded as `String`,
except where character-level operations (`trim`, `toLowerCase`,
`includes`) matter, where `List Char` is used.
-/

/-! ## The tariff engine (modelled from the spec)

`Modelled from the spec:` the module `src/lib/ambulancePricing.ts`
(exporting `calculateAmbulanceTariff` and `configToTariffConfig`) is not
present among the source files; only its callers
(`handleAddAmbulanceService`, `handleCalculateDistance`, the manual
distance input of `VisitDetailPage`) and the type declarations
`AmbulanceConfig` / `AmbulanceMetadata` in `src/types/models.ts` are.
The engine below follows spec §4.1 word for word:

1. `roundTripKm = oneWayKm * 2`;
2. `baseAmount = roundTripKm * costPerKm`;
3. four surcharges, each `baseAmount * rate`;
4. `subtotal = baseAmount + driverCost + adminCost + maintenanceCost +
   hospitalCost`;
5. `taxAmount = subtotal * taxPct`;
6. `total = subtotal + taxAmount`;
7. every monetary field is rounded to the currency's minor unit (whole
   units for the zero-decimal currency at hand) by round-half-up,
   applied independently to each component — not only to the final
   total — so that the displayed line items sum exactly to the displayed
   total.

Step 7's demand that the rounded line items sum *exactly* to the rounded
totals forces the rounding of each monetary field to happen where the
field is produced: each surcharge is the rounded value of
`baseAmount * rate` computed from the already-rounded `baseAmount`,
`subtotal` is the exact integer sum of the rounded components (so rounding
it is the identity), `taxAmount` is the rounded value of
`subtotal * taxPct`, and `total` is the exact integer sum of `subtotal`
and `taxAmount`.

Error conditions (spec §4.1/§7): the engine fails with the `InvalidInput`
error kind if `oneWayKm` is negative or non-finite, or if any
configuration rate (`driverPct`, `adminPct`, `maintenancePct`,
`hospitalPct`, `taxPct`) lies outside `[0, 1]`.
-/

/-- Vehicle/service pricing configuration (spec §3 `VehicleServiceConfig`,
mirroring `AmbulanceConfig` of `src/types/models.ts`). -/
structure TariffConfig where
  vehicleType : String
  costPerKm : ℚ
  driverPct : ℚ
  adminPct : ℚ
  maintenancePct : ℚ
  hospitalPct : ℚ
  taxPct : ℚ
  isActive : Bool
deriving DecidableEq, Repr

/-- Trip request (spec §3 `TripRequest`).  `oneWayKm = none` models a
non-finite JavaScript number (`NaN` or `±Infinity`). -/
structure TariffRequest where
  vehicleType : String
  serviceType : String
  oneWayKm : Option ℚ
  googleMapsUrl : Option String
deriving DecidableEq, Repr

/-- Error kinds of the tariff engine (spec §7). -/
inductive TariffError where
  | invalidInput
deriving DecidableEq, Repr

/-- Itemized fare breakdown (spec §3 `TariffBreakdown`, mirroring
`AmbulanceMetadata` of `src/types/models.ts`, whose `bba` field is the
base amount, plus the `total` carried on the engine's result).  Distances
and echoed rates stay rational; monetary amounts are whole minor units. -/
structure TariffBreakdown where
  vehicleType : String
  serviceType : String
  oneWayKm : ℚ
  roundTripKm : ℚ
  costPerKm : ℚ
  driverPct : ℚ
  adminPct : ℚ
  maintenancePct : ℚ
  hospitalPct : ℚ
  taxPct : ℚ
  baseAmount : ℤ
  driverCost : ℤ
  adminCost : ℤ
  maintenanceCost : ℤ
  hospitalCost : ℤ
  subtotal : ℤ
  taxAmount : ℤ
  total : ℤ
  googleMapsUrl : Option String
deriving DecidableEq, Repr

/-- Round-half-up to a whole minor currency unit (spec §4.1 step 7). -/
def roundHalfUp (q : ℚ) : ℤ := ⌊q + 1 / 2⌋

/-- A fractional surcharge/tax rate must lie in `[0, 1]` (spec §4.1). -/
def rateInRange (r : ℚ) : Bool := decide (0 ≤ r ∧ r ≤ 1)

/-- All five configuration rates lie in `[0, 1]` (spec §4.1 error
conditions). -/
def TariffConfig.ratesValid (cfg : TariffConfig) : Bool :=
  rateInRange cfg.driverPct && rateInRange cfg.adminPct &&
    rateInRange cfg.maintenancePct && rateInRange cfg.hospitalPct &&
    rateInRange cfg.taxPct

/-- Step 2 of the algorithm: the rounded cost basis
`roundTripKm * costPerKm` with `roundTripKm = oneWayKm * 2`. -/
def baseAmountOf (cfg : TariffConfig) (km : ℚ) : ℤ :=
  roundHalfUp (km * 2 * cfg.costPerKm)

/-- Step 3: one rounded surcharge `baseAmount * rate`. -/
def surchargeOf (base : ℤ) (rate : ℚ) : ℤ :=
  roundHalfUp ((base : ℚ) * rate)

/-- Step 4: `subtotal`, the exact sum of the rounded base and the four
rounded surcharges. -/
def subtotalOf (cfg : TariffConfig) (km : ℚ) : ℤ :=
  baseAmountOf cfg km + surchargeOf (baseAmountOf cfg km) cfg.driverPct +
    surchargeOf (baseAmountOf cfg km) cfg.adminPct +
    surchargeOf (baseAmountOf cfg km) cfg.maintenancePct +
    surchargeOf (baseAmountOf cfg km) cfg.hospitalPct

/-- Step 5: the rounded tax `subtotal * taxPct`. -/
def taxAmountOf (cfg : TariffConfig) (km : ℚ) : ℤ :=
  roundHalfUp ((subtotalOf cfg km : ℚ) * cfg.taxPct)

/-- Step 6: `total = subtotal + taxAmount`. -/
def totalOf (cfg : TariffConfig) (km : ℚ) : ℤ :=
  subtotalOf cfg km + taxAmountOf cfg km

/-- The breakdown produced on the success path, echoing the inputs as the
spec's `TariffBreakdown` requires. -/
def mkBreakdown (req : TariffRequest) (cfg : TariffConfig) (km : ℚ) :
    TariffBreakdown where
  vehicleType := req.vehicleType
  serviceType := req.serviceType
  oneWayKm := km
  roundTripKm := km * 2
  costPerKm := cfg.costPerKm
  driverPct := cfg.driverPct
  adminPct := cfg.adminPct
  maintenancePct := cfg.maintenancePct
  hospitalPct := cfg.hospitalPct
  taxPct := cfg.taxPct
  baseAmount := baseAmountOf cfg km
  driverCost := surchargeOf (baseAmountOf cfg km) cfg.driverPct
  adminCost := surchargeOf (baseAmountOf cfg km) cfg.adminPct
  maintenanceCost := surchargeOf (baseAmountOf cfg km) cfg.maintenancePct
  hospitalCost := surchargeOf (baseAmountOf cfg km) cfg.hospitalPct
  subtotal := subtotalOf cfg km
  taxAmount := taxAmountOf cfg km
  total := totalOf cfg km
  googleMapsUrl := req.googleMapsUrl

/-- `Modelled from the spec:` the tariff engine `calculateAmbulanceTariff`
of the absent module `src/lib/ambulancePricing.ts`, following spec §4.1:
validation first (reject a non-finite or negative distance and any rate
outside `[0, 1]` with `InvalidInput`, returning no partial breakdown),
then the six-step fixed-order computation with per-component
round-half-up. -/
def calculateAmbulanceTariff (req : TariffRequest) (cfg : TariffConfig) :
    Except TariffError TariffBreakdown :=
  match req.oneWayKm with
  | none => Except.error TariffError.invalidInput
  | some km =>
    if km < 0 then Except.error TariffError.invalidInput
    else if cfg.ratesValid then Except.ok (mkBreakdown req cfg km)
    else Except.error TariffError.invalidInput

/-- The configuration of the spec's concrete scenario (§8). -/
def cfgScenario : TariffConfig where
  vehicleType := "GRANDMAX"
  costPerKm := 6000
  driverPct := 16 / 100
  adminPct := 8 / 100
  maintenancePct := 5 / 100
  hospitalPct := 10 / 100
  taxPct := 11 / 100
  isActive := true

/-- The request of the spec's concrete scenario (§8). -/
def reqScenario : TariffRequest where
  vehicleType := "GRANDMAX"
  serviceType := "PASIEN"
  oneWayKm := some 5
  googleMapsUrl := none

/-- The scenario request relabelled as a deceased-patient transport. -/
def reqScenarioJenazah : TariffRequest :=
  { reqScenario with serviceType := "JENAZAH" }

/-! ## The Google Maps distance service (`src/lib/googleMaps.ts`)

`calculateDistance` is an `async` function whose effects are a `fetch` of
the Distance Matrix API followed by `response.json()`.  The embedding
makes the effect explicit: the environment supplies the configured API
key (`process.env.NEXT_PUBLIC_GOOGLE_MAPS_API_KEY`, `none` when unset)
and a `FetchOutcome` describing how the network interaction went — the
promise rejected with some error message (`thrown`), or a response
arrived with its `ok` flag, HTTP status and parsed JSON body.  The
function itself is then a total, pure function of these inputs: the
source wraps everything after the key check in `try/catch` and every
`throw` inside the `try` block is caught by the `catch` that produces the
error-shaped result, so no exception escapes to the caller. -/

/-- The `status` field of `DistanceResult`: `'success' | 'error'`. -/
inductive DistStatus where
  | success
  | error
deriving DecidableEq, Repr

/-- `DistanceResult` of `src/lib/googleMaps.ts`. -/
structure DistanceResult where
  distanceKm : ℚ
  distanceText : String
  durationText : String
  mapsUrl : String
  status : DistStatus
  errorMessage : Option String
deriving DecidableEq, Repr

/-- One element of the Distance Matrix response
(`data.rows[i].elements[j]`), with `distance.value` in meters. -/
structure DistanceElement where
  status : String
  distanceValue : ℚ
  distanceText : String
  durationText : String
deriving DecidableEq, Repr

/-- One row of the Distance Matrix response. -/
structure DistanceRow where
  elements : List DistanceElement
deriving DecidableEq, Repr

/-- The parsed JSON body of the Distance Matrix response. -/
structure DistanceApiData where
  status : String
  errorMsg : Option String
  rows : List DistanceRow
deriving DecidableEq, Repr

/-- How the `fetch`/`json()` interaction went: the promise rejected with
an error message, or a response arrived. -/
inductive FetchOutcome where
  | thrown (msg : String)
  | response (ok : Bool) (httpStatus : Nat) (data : DistanceApiData)
deriving DecidableEq, Repr

/-- JavaScript `a || b` on strings: the fallback replaces `undefined` and
the empty string (both falsy). -/
def jsStringOr (s : Option String) (fallback : String) : String :=
  match s with
  | none => fallback
  | some m => if m = "" then fallback else m

/-- `encodeURIComponent`: unreserved characters
(`A–Z a–z 0–9 - _ . ! ~ * ' ( )`) pass through, every other character is
percent-encoded byte-by-byte in UTF-8 with uppercase hex digits. -/
def isUnreservedURIChar (c : Char) : Bool :=
  c.isAlphanum || c = '-' || c = '_' || c = '.' || c = '!' || c = '~' ||
    c = '*' || c.toNat == 39 || c = '(' || c = ')'

/-- Uppercase hexadecimal digit for `n < 16`. -/
def hexDigitChar (n : Nat) : Char :=
  if n < 10 then Char.ofNat (48 + n) else Char.ofNat (55 + n)

/-- UTF-8 bytes of a character. -/
def utf8Bytes (c : Char) : List Nat :=
  let n := c.toNat
  if n < 128 then [n]
  else if n < 2048 then [192 + n / 64, 128 + n % 64]
  else if n < 65536 then
    [224 + n / 4096, 128 + n / 64 % 64, 128 + n % 64]
  else
    [240 + n / 262144, 128 + n / 4096 % 64, 128 + n / 64 % 64,
      128 + n % 64]

/-- Percent-encode one character as `encodeURIComponent` does. -/
def percentEncodeChar (c : Char) : List Char :=
  if isUnreservedURIChar c then [c]
  else
    (utf8Bytes c).foldr
      (fun b acc => '%' :: hexDigitChar (b / 16) :: hexDigitChar (b % 16)
        :: acc) []

/-- `encodeURIComponent` on a whole string. -/
def encodeURIComponent (s : String) : String :=
  String.mk (s.data.foldr (fun c acc => percentEncodeChar c ++ acc) [])

/-- `buildMapsDirectionsUrl` of `src/lib/googleMaps.ts`: the directions
URL kept for the audit trail. -/
def buildMapsDirectionsUrl (origin destination : String) : String :=
  "https://www.google.com/maps/dir/" ++ encodeURIComponent origin ++
    "/" ++ encodeURIComponent destination

/-- The error-shaped result every failure path of `calculateDistance`
returns, differing only in the message. -/
def distanceErrorResult (msg : String) : DistanceResult where
  distanceKm := 0
  distanceText := "N/A"
  durationText := "N/A"
  mapsUrl := ""
  status := DistStatus.error
  errorMessage := some msg

/-- `data.rows[0]?.elements[0]` of the source. -/
def firstElement (data : DistanceApiData) : Option DistanceElement :=
  data.rows.head?.bind fun r => r.elements.head?

/-- `calculateDistance` of `src/lib/googleMaps.ts`, as a pure function of
the two addresses, the configured API key and the fetch outcome.  Every
`throw` of the source lands in its `catch`, which produces
`distanceErrorResult (error.message || 'Gagal menghitung jarak')`. -/
def calculateDistance (origin destination : String)
    (apiKey : Option String) (outcome : FetchOutcome) : DistanceResult :=
  match apiKey with
  | none =>
    distanceErrorResult "API key tidak dikonfigurasi. Hubungi administrator."
  | some key =>
    if key = "" then
      distanceErrorResult
        "API key tidak dikonfigurasi. Hubungi administrator."
    else
      match outcome with
      | FetchOutcome.thrown msg =>
        distanceErrorResult (jsStringOr (some msg) "Gagal menghitung jarak")
      | FetchOutcome.response ok httpStatus data =>
        if ok = false then
          distanceErrorResult ("HTTP error! status: " ++ toString httpStatus)
        else if data.status ≠ "OK" then
          distanceErrorResult
            ("API error: " ++ data.status ++ " - " ++
              jsStringOr data.errorMsg "Unknown error")
        else
          match firstElement data with
          | none =>
            distanceErrorResult
              "Tidak dapat menghitung jarak. Periksa alamat yang dimasukkan."
          | some el =>
            if el.status ≠ "OK" then
              distanceErrorResult
                "Tidak dapat menghitung jarak. Periksa alamat yang dimasukkan."
            else
              { distanceKm := el.distanceValue / 1000
                distanceText := el.distanceText
                durationText := el.durationText
                mapsUrl := buildMapsDirectionsUrl origin destination
                status := DistStatus.success
                errorMessage := none }

/-- The failure cases of `calculateDistance`: missing (or empty) API key,
rejected fetch/JSON promise, non-OK HTTP response, API status other than
`'OK'`, or a missing or non-OK route element. -/
def distanceFailureCase (apiKey : Option String)
    (outcome : FetchOutcome) : Prop :=
  apiKey = none ∨ apiKey = some "" ∨
    (∃ msg, outcome = FetchOutcome.thrown msg) ∨
    (∃ st data, outcome = FetchOutcome.response false st data) ∨
    (∃ st data, outcome = FetchOutcome.response true st data ∧
      data.status ≠ "OK") ∨
    (∃ st data, outcome = FetchOutcome.response true st data ∧
      data.status = "OK" ∧
      (firstElement data = none ∨
        ∃ el, firstElement data = some el ∧ el.status ≠ "OK"))

/-! ## Visit billing state (`src/types/models.ts` and the visit detail
page handlers)

The handlers of `VisitDetailPage` mutate a `Visit` by rebuilding the
`services`/`prescriptions` lists and recomputing `totalBiaya` with
`calculateTotal`.  The embedding renders each handler's state update as a
pure function `Visit → … → Visit`; numeric form fields arrive already
parsed (the source applies `parseFloat`/`parseInt` with `|| 1` defaults
before constructing the records). -/

/-- `VisitPrescription` of `src/types/models.ts`. -/
structure VisitPrescription where
  id : String
  drugId : Option String
  obatId : Option String
  namaObat : String
  qty : ℚ
  aturanPakai : Option String
  pricePerUnit : Option ℚ
  totalPrice : Option ℚ
deriving DecidableEq, Repr

/-- `VisitService` of `src/types/models.ts` (the generalized billing line
item; `ambulanceMeta` carries the detailed ambulance breakdown). -/
structure VisitService where
  id : String
  nama : String
  harga : ℚ
  quantity : Option ℚ
  category : Option String
  unit : Option String
  total : Option ℚ
  dokter : Option String
  notes : Option String
  ambulanceMeta : Option TariffBreakdown
deriving DecidableEq, Repr

/-- `Visit` of `src/types/models.ts` (fields relevant to billing). -/
structure Visit where
  id : String
  patientId : String
  tanggalKunjungan : String
  jenis : String
  dokter : String
  rujukan : Option String
  asuransi : Option String
  status : String
  services : List VisitService
  prescriptions : List VisitPrescription
  totalBiaya : ℚ
deriving DecidableEq, Repr

/-- JavaScript `a || b` on numbers: the fallback replaces `undefined`
and `0` (both falsy). -/
def jsNumOr (q : Option ℚ) (fallback : ℚ) : ℚ :=
  match q with
  | none => fallback
  | some x => if x = 0 then fallback else x

/-- `calculateTotal` of the visit detail page: the services sum of
`harga * (quantity || 1)` plus the prescriptions sum of
`totalPrice || 0`, both as `reduce` left folds. -/
def calculateTotal (services : List VisitService)
    (prescriptions : List VisitPrescription) : ℚ :=
  services.foldl (fun sum s => sum + s.harga * jsNumOr s.quantity 1) 0 +
    prescriptions.foldl (fun sum p => sum + jsNumOr p.totalPrice 0) 0

/-- The invariant the claims are about: `totalBiaya` equals
`calculateTotal` of the current lists. -/
def totalBiayaInvariant (visit : Visit) : Prop :=
  visit.totalBiaya = calculateTotal visit.services visit.prescriptions

/-- `handleAddService`, add branch: append the new service and recompute
`totalBiaya` over the updated services and the unchanged
prescriptions. -/
def handleAddService (visit : Visit) (id nama : String) (harga : ℚ)
    (quantity : ℚ) (category : String) (unit dokter notes : Option String) :
    Visit :=
  let service : VisitService :=
    { id := id, nama := nama, harga := harga, quantity := some quantity,
      category := some category, unit := unit, total := none,
      dokter := dokter, notes := notes, ambulanceMeta := none }
  let updatedServices := visit.services ++ [service]
  { visit with
      services := updatedServices
      totalBiaya := calculateTotal updatedServices visit.prescriptions }

/-- `handleAddService`, edit branch: rewrite the fields of the service
whose `id` matches `editingServiceId` and recompute `totalBiaya`. -/
def handleEditService (visit : Visit) (editingServiceId nama : String)
    (harga quantity : ℚ) (category : String)
    (unit dokter notes : Option String) : Visit :=
  let updatedServices := visit.services.map fun s =>
    if s.id = editingServiceId then
      { s with
        nama := nama, harga := harga, quantity := some quantity,
        category := some category, unit := unit, dokter := dokter,
        notes := notes }
    else s
  { visit with
      services := updatedServices
      totalBiaya := calculateTotal updatedServices visit.prescriptions }

/-- `handleRemoveService`: drop the service with the given id and
recompute `totalBiaya`. -/
def handleRemoveService (visit : Visit) (serviceId : String) : Visit :=
  let updatedServices := visit.services.filter fun s => s.id != serviceId
  { visit with
      services := updatedServices
      totalBiaya := calculateTotal updatedServices visit.prescriptions }

/-- `handleAddAmbulanceService`: append an `AMBULANCE` line item priced
at the tariff total with quantity 1 and the breakdown attached as
`ambulanceMeta`, then recompute `totalBiaya` (`nama` is the label the
source formats from the vehicle type, service type and distance). -/
def handleAddAmbulanceService (visit : Visit) (id nama : String)
    (tariffResult : TariffBreakdown) : Visit :=
  let service : VisitService :=
    { id := id, nama := nama, harga := (tariffResult.total : ℚ),
      quantity := some 1, category := some "AMBULANCE", unit := none,
      total := some (tariffResult.total : ℚ), dokter := none,
      notes := none, ambulanceMeta := some tariffResult }
  let updatedServices := visit.services ++ [service]
  { visit with
      services := updatedServices
      totalBiaya := calculateTotal updatedServices visit.prescriptions }

/-- `handleAddPrescription`: append the prescription with
`totalPrice = qty * pricePerUnit` and recompute `totalBiaya` over the
unchanged services and the updated prescriptions. -/
def handleAddPrescription (visit : Visit) (id : String)
    (drugId : Option String) (namaObat : String) (qty : ℚ)
    (aturanPakai : Option String) (pricePerUnit : ℚ) : Visit :=
  let totalPrice := qty * pricePerUnit
  let p : VisitPrescription :=
    { id := id, drugId := drugId, obatId := none, namaObat := namaObat,
      qty := qty, aturanPakai := aturanPakai,
      pricePerUnit := some pricePerUnit, totalPrice := some totalPrice }
  let updatedPrescriptions := visit.prescriptions ++ [p]
  { visit with
      prescriptions := updatedPrescriptions
      totalBiaya := calculateTotal visit.services updatedPrescriptions }

/-- `handleRemovePrescription`: drop the prescription with the given id
and recompute `totalBiaya`. -/
def handleRemovePrescription (visit : Visit) (prescriptionId : String) :
    Visit :=
  let updatedPrescriptions :=
    visit.prescriptions.filter fun p => p.id != prescriptionId
  { visit with
      prescriptions := updatedPrescriptions
      totalBiaya := calculateTotal visit.services updatedPrescriptions }

/-! ## Address formatting (`formatAddressForAPI` of
`src/lib/googleMaps.ts`)

The character-level string operations `trim`, `toLowerCase` and
`includes` are embedded over `List Char`: `trim` drops whitespace
characters (modelled by `Char.isWhitespace`) from both ends,
`toLowerCase` maps `Char.toLower`, and `s.includes(sub)` tests infix
containment. -/

/-- The whitespace predicate used by `trim`. -/
def jsCharWhitespace (c : Char) : Bool := c.isWhitespace

/-- JavaScript `String.prototype.trim`. -/
def jsTrim (s : List Char) : List Char :=
  List.rdropWhile jsCharWhitespace (List.dropWhile jsCharWhitespace s)

/-- JavaScript `String.prototype.toLowerCase`. -/
def jsToLower (s : List Char) : List Char := s.map Char.toLower

/-- JavaScript `s.includes(sub)`: infix containment. -/
def jsIncludes (s sub : List Char) : Bool := decide (sub <:+: s)

/-- `formatAddressForAPI` of `src/lib/googleMaps.ts`: trim the address
and, when it does not already contain the default city
case-insensitively, append `", " ++ defaultCity` (the source's default
city argument is `'Ponorogo'`). -/
def formatAddressForAPI (address : List Char) (defaultCity : List Char) :
    List Char :=
  let trimmed := jsTrim address
  if !jsIncludes (jsToLower trimmed) (jsToLower defaultCity) then
    trimmed ++ ',' :: ' ' :: defaultCity
  else trimmed

/-- C1: for `costPerKm = 6000`, `oneWayKm = 5`, `driverPct = 0.16`,
`adminPct = 0.08`, `maintenancePct = 0.05`, `hospitalPct = 0.10`,
`taxPct = 0.11`, `calculateAmbulanceTariff` returns a breakdown with
`roundTripKm = 10`, `baseAmount = 60000`, `driverCost = 9600`,
`adminCost = 4800`, `maintenanceCost = 3000`, `hospitalCost = 6000`,
`subtotal = 83400`, `taxAmount = 9174` and `total = 92574`. -/
theorem tariff_concrete_scenario :
    ∃ b : TariffBreakdown,
      calculateAmbulanceTariff reqScenario cfgScenario = Except.ok b ∧
      b.roundTripKm = 10 ∧ b.baseAmount = 60000 ∧ b.driverCost = 9600 ∧
      b.adminCost = 4800 ∧ b.maintenanceCost = 3000 ∧
      b.hospitalCost = 6000 ∧ b.subtotal = 83400 ∧ b.taxAmount = 9174 ∧
      b.total = 92574 := by
  refine ⟨mkBreakdown reqScenario cfgScenario 5, ?_, ?_, ?_, ?_, ?_, ?_,
    ?_, ?_, ?_, ?_⟩ <;>
    simp [calculateAmbulanceTariff, TariffConfig.ratesValid, rateInRange,
      mkBreakdown, baseAmountOf, surchargeOf, subtotalOf, taxAmountOf,
      totalOf, roundHalfUp, reqScenario, cfgScenario] <;>
    norm_num

/-- Success characterization of the engine: a breakdown is returned
exactly when the distance is finite and non-negative and all five rates
lie in `[0, 1]`, and then the breakdown is `mkBreakdown`. -/
theorem calculateAmbulanceTariff_ok_iff (req : TariffRequest)
    (cfg : TariffConfig) (b : TariffBreakdown) :
    calculateAmbulanceTariff req cfg = Except.ok b ↔
      ∃ km, req.oneWayKm = some km ∧ ¬km < 0 ∧ cfg.ratesValid = true ∧
        b = mkBreakdown req cfg km := by
  cases h : req.oneWayKm with
  | none => simp [calculateAmbulanceTariff, h]
  | some km =>
    by_cases h1 : km < 0
    · simp [calculateAmbulanceTariff, h, h1]
    · by_cases h2 : cfg.ratesValid
      · simp only [calculateAmbulanceTariff, h, if_neg h1, if_pos h2,
          Except.ok.injEq]
        constructor
        · rintro rfl
          exact ⟨km, rfl, h1, h2, rfl⟩
        · rintro ⟨km', hkm', _, _, rfl⟩
          obtain rfl : km = km' := by
            simpa using hkm'
          rfl
      · simp [calculateAmbulanceTariff, h, h1, h2]

/-- The spec's concrete scenario succeeds and yields `mkBreakdown`. -/
theorem scenario_ok (q : ℚ) (hq : ¬q < 0) :
    calculateAmbulanceTariff { reqScenario with oneWayKm := some q }
      cfgScenario =
      Except.ok
        (mkBreakdown { reqScenario with oneWayKm := some q } cfgScenario
          q) := by
  simp only [calculateAmbulanceTariff, if_neg hq]
  have hv : cfgScenario.ratesValid = true := by
    simp [TariffConfig.ratesValid, rateInRange, cfgScenario]
    norm_num
  rw [if_pos hv]

/-- C2: on every breakdown the engine returns, the post-rounding component
sum laws hold exactly: `subtotal` is exactly the sum of the rounded
`baseAmount` and the four rounded surcharges, `total` is exactly
`subtotal + taxAmount`, and every monetary field is the round-half-up
image of its defining product, rounded independently per component. -/
theorem tariff_component_sum_law (req : TariffRequest) (cfg : TariffConfig)
    (b : TariffBreakdown)
    (h : calculateAmbulanceTariff req cfg = Except.ok b) :
    b.subtotal =
        b.baseAmount + b.driverCost + b.adminCost + b.maintenanceCost +
          b.hospitalCost ∧
      b.total = b.subtotal + b.taxAmount ∧
      b.baseAmount = roundHalfUp (b.roundTripKm * cfg.costPerKm) ∧
      b.driverCost = roundHalfUp ((b.baseAmount : ℚ) * cfg.driverPct) ∧
      b.adminCost = roundHalfUp ((b.baseAmount : ℚ) * cfg.adminPct) ∧
      b.maintenanceCost =
        roundHalfUp ((b.baseAmount : ℚ) * cfg.maintenancePct) ∧
      b.hospitalCost = roundHalfUp ((b.baseAmount : ℚ) * cfg.hospitalPct) ∧
      b.taxAmount = roundHalfUp ((b.subtotal : ℚ) * cfg.taxPct) := by
  obtain ⟨km, -, -, -, rfl⟩ := (calculateAmbulanceTariff_ok_iff _ _ _).mp h
  refine ⟨rfl, rfl, ?_, rfl, rfl, rfl, rfl, rfl⟩
  simp [mkBreakdown, baseAmountOf]

/-- Witness for C2 at the spec's concrete scenario. -/
theorem tariff_component_sum_law_witness :
    (mkBreakdown { reqScenario with oneWayKm := some 5 } cfgScenario
          5).subtotal =
        (mkBreakdown { reqScenario with oneWayKm := some 5 } cfgScenario
              5).baseAmount +
          (mkBreakdown { reqScenario with oneWayKm := some 5 } cfgScenario
                5).driverCost +
          (mkBreakdown { reqScenario with oneWayKm := some 5 } cfgScenario
                5).adminCost +
          (mkBreakdown { reqScenario with oneWayKm := some 5 } cfgScenario
                5).maintenanceCost +
          (mkBreakdown { reqScenario with oneWayKm := some 5 } cfgScenario
                5).hospitalCost :=
  (tariff_component_sum_law _ cfgScenario _
      (scenario_ok 5 (by norm_num))).1

/-- C3: a non-finite or negative one-way distance, or any configuration
rate outside `[0, 1]`, makes the engine fail with `InvalidInput` and
return no partial breakdown (in particular a negative distance is never
coerced to zero). -/
theorem tariff_invalid_input (req : TariffRequest) (cfg : TariffConfig)
    (h : req.oneWayKm = none ∨ (∃ q, req.oneWayKm = some q ∧ q < 0) ∨
      cfg.ratesValid = false) :
    calculateAmbulanceTariff req cfg =
      Except.error TariffError.invalidInput := by
  rcases h with h | ⟨q, hq, hneg⟩ | h
  · simp [calculateAmbulanceTariff, h]
  · simp [calculateAmbulanceTariff, hq, hneg]
  · cases hkm : req.oneWayKm with
    | none => simp [calculateAmbulanceTariff, hkm]
    | some km => simp [calculateAmbulanceTariff, hkm, h]

/-- Witness for C3 at `oneWayKm = -3`. -/
theorem tariff_invalid_input_witness :
    calculateAmbulanceTariff { reqScenario with oneWayKm := some (-3) }
        cfgScenario =
      Except.error TariffError.invalidInput :=
  tariff_invalid_input _ cfgScenario
    (Or.inr (Or.inl ⟨-3, rfl, by norm_num⟩))

/-- C5: every breakdown the engine returns satisfies
`roundTripKm = 2 * oneWayKm`. -/
theorem tariff_round_trip_doubling (req : TariffRequest)
    (cfg : TariffConfig) (q : ℚ) (b : TariffBreakdown)
    (hq : req.oneWayKm = some q)
    (h : calculateAmbulanceTariff req cfg = Except.ok b) :
    b.roundTripKm = 2 * q := by
  obtain ⟨km, hkm, -, -, rfl⟩ := (calculateAmbulanceTariff_ok_iff _ _ _).mp h
  obtain rfl : q = km := by
    rw [hq] at hkm
    simpa using hkm
  simp [mkBreakdown, mul_comm]

/-- Witness for C5 at the spec's concrete scenario. -/
theorem tariff_round_trip_doubling_witness :
    (mkBreakdown { reqScenario with oneWayKm := some 5 } cfgScenario
        5).roundTripKm = 2 * 5 :=
  tariff_round_trip_doubling _ cfgScenario 5 _ rfl
    (scenario_ok 5 (by norm_num))

/-- `roundHalfUp 0 = 0`. -/
theorem roundHalfUp_zero : roundHalfUp 0 = 0 := by
  simp [roundHalfUp]
  norm_num

/-- A surcharge on a zero base is zero. -/
theorem surchargeOf_zero_base (r : ℚ) : surchargeOf 0 r = 0 := by
  simp [surchargeOf, roundHalfUp_zero]

/-- The base amount at distance zero is zero. -/
theorem baseAmountOf_zero (cfg : TariffConfig) : baseAmountOf cfg 0 = 0 := by
  simp [baseAmountOf, roundHalfUp_zero]

/-- The subtotal at distance zero is zero. -/
theorem subtotalOf_zero (cfg : TariffConfig) : subtotalOf cfg 0 = 0 := by
  simp [subtotalOf, baseAmountOf_zero, surchargeOf_zero_base]

/-- The tax at distance zero is zero. -/
theorem taxAmountOf_zero (cfg : TariffConfig) : taxAmountOf cfg 0 = 0 := by
  simp [taxAmountOf, subtotalOf_zero, roundHalfUp_zero]

/-- C6: with `oneWayKm = 0` every monetary field of the returned breakdown
is zero. -/
theorem tariff_zero_distance (req : TariffRequest) (cfg : TariffConfig)
    (b : TariffBreakdown) (hq : req.oneWayKm = some 0)
    (h : calculateAmbulanceTariff req cfg = Except.ok b) :
    b.baseAmount = 0 ∧ b.driverCost = 0 ∧ b.adminCost = 0 ∧
      b.maintenanceCost = 0 ∧ b.hospitalCost = 0 ∧ b.subtotal = 0 ∧
      b.taxAmount = 0 ∧ b.total = 0 := by
  obtain ⟨km, hkm, -, -, rfl⟩ := (calculateAmbulanceTariff_ok_iff _ _ _).mp h
  obtain rfl : km = 0 := by
    rw [hq] at hkm
    simpa using hkm.symm
  refine ⟨baseAmountOf_zero cfg, ?_, ?_, ?_, ?_, subtotalOf_zero cfg,
    taxAmountOf_zero cfg, ?_⟩ <;>
    simp [mkBreakdown, baseAmountOf_zero, surchargeOf_zero_base, totalOf,
      subtotalOf_zero, taxAmountOf_zero]

/-- Witness for C6 at the scenario configuration and distance zero. -/
theorem tariff_zero_distance_witness :
    (mkBreakdown { reqScenario with oneWayKm := some 0 } cfgScenario
        0).total = 0 :=
  (tariff_zero_distance _ cfgScenario _ rfl
      (scenario_ok 0 (by norm_num))).2.2.2.2.2.2.2

/-- C7: two requests that differ only in `serviceType` produce breakdowns
with identical distance and monetary fields: `serviceType` never enters
the arithmetic, it is only carried through for labeling/audit. -/
theorem tariff_serviceType_no_effect (cfg : TariffConfig)
    (r1 r2 : TariffRequest) (b1 b2 : TariffBreakdown)
    (_hveh : r1.vehicleType = r2.vehicleType)
    (hkm : r1.oneWayKm = r2.oneWayKm)
    (_hurl : r1.googleMapsUrl = r2.googleMapsUrl)
    (h1 : calculateAmbulanceTariff r1 cfg = Except.ok b1)
    (h2 : calculateAmbulanceTariff r2 cfg = Except.ok b2) :
    b1.oneWayKm = b2.oneWayKm ∧ b1.roundTripKm = b2.roundTripKm ∧
      b1.baseAmount = b2.baseAmount ∧ b1.driverCost = b2.driverCost ∧
      b1.adminCost = b2.adminCost ∧
      b1.maintenanceCost = b2.maintenanceCost ∧
      b1.hospitalCost = b2.hospitalCost ∧ b1.subtotal = b2.subtotal ∧
      b1.taxAmount = b2.taxAmount ∧ b1.total = b2.total := by
  obtain ⟨km1, hkm1, -, -, rfl⟩ :=
    (calculateAmbulanceTariff_ok_iff _ _ _).mp h1
  obtain ⟨km2, hkm2, -, -, rfl⟩ :=
    (calculateAmbulanceTariff_ok_iff _ _ _).mp h2
  obtain rfl : km1 = km2 := by
    rw [hkm1, hkm2] at hkm
    simpa using hkm
  exact ⟨rfl, rfl, rfl, rfl, rfl, rfl, rfl, rfl, rfl, rfl⟩

/-- `reqScenarioJenazah` also succeeds on the scenario configuration. -/
theorem scenario_jenazah_ok :
    calculateAmbulanceTariff
        { reqScenarioJenazah with oneWayKm := some 5 } cfgScenario =
      Except.ok
        (mkBreakdown { reqScenarioJenazah with oneWayKm := some 5 }
          cfgScenario 5) := by
  simp only [calculateAmbulanceTariff]
  rw [if_neg (by norm_num : ¬(5 : ℚ) < 0)]
  have hv : cfgScenario.ratesValid = true := by
    simp [TariffConfig.ratesValid, rateInRange, cfgScenario]
    norm_num
  rw [if_pos hv]

/-- Witness for C7: `PASIEN` versus `JENAZAH` at the concrete scenario. -/
theorem tariff_serviceType_no_effect_witness :
    (mkBreakdown { reqScenario with oneWayKm := some 5 } cfgScenario
        5).total =
      (mkBreakdown { reqScenarioJenazah with oneWayKm := some 5 }
          cfgScenario 5).total :=
  (tariff_serviceType_no_effect cfgScenario
      { reqScenario with oneWayKm := some 5 }
      { reqScenarioJenazah with oneWayKm := some 5 } _ _ rfl rfl rfl
      (scenario_ok 5 (by norm_num)) scenario_jenazah_ok).2.2.2.2.2.2.2.2.2

/-- Round-half-up is monotone. -/
theorem roundHalfUp_mono {a b : ℚ} (h : a ≤ b) :
    roundHalfUp a ≤ roundHalfUp b :=
  Int.floor_mono (by linarith)

/-- Round-half-up of a non-negative amount is non-negative. -/
theorem roundHalfUp_nonneg {a : ℚ} (h : 0 ≤ a) : 0 ≤ roundHalfUp a :=
  Int.le_floor.mpr (by push_cast; linarith)

/-- A surcharge on a non-negative base with a non-negative rate is
non-negative. -/
theorem surchargeOf_nonneg {B : ℤ} (hB : 0 ≤ B) {r : ℚ} (hr : 0 ≤ r) :
    0 ≤ surchargeOf B r :=
  roundHalfUp_nonneg (mul_nonneg (by exact_mod_cast hB) hr)

/-- Unpacking `ratesValid`: all five rates lie in `[0, 1]`. -/
theorem ratesValid_elim (cfg : TariffConfig) (h : cfg.ratesValid = true) :
    0 ≤ cfg.driverPct ∧ cfg.driverPct ≤ 1 ∧ 0 ≤ cfg.adminPct ∧
      cfg.adminPct ≤ 1 ∧ 0 ≤ cfg.maintenancePct ∧
      cfg.maintenancePct ≤ 1 ∧ 0 ≤ cfg.hospitalPct ∧
      cfg.hospitalPct ≤ 1 ∧ 0 ≤ cfg.taxPct ∧ cfg.taxPct ≤ 1 := by
  simp only [TariffConfig.ratesValid, rateInRange, Bool.and_eq_true,
    decide_eq_true_eq] at h
  tauto

/-- Joint monotonicity of the engine total in the distance and in all
five rates, for a fixed non-negative cost per kilometer. -/
theorem totalOf_mono (cfg cfg' : TariffConfig) {q q' : ℚ}
    (hcost : cfg'.costPerKm = cfg.costPerKm) (hc : 0 ≤ cfg.costPerKm)
    (hq0 : 0 ≤ q) (hq : q ≤ q') (hd0 : 0 ≤ cfg.driverPct)
    (hd : cfg.driverPct ≤ cfg'.driverPct) (ha0 : 0 ≤ cfg.adminPct)
    (ha : cfg.adminPct ≤ cfg'.adminPct) (hm0 : 0 ≤ cfg.maintenancePct)
    (hm : cfg.maintenancePct ≤ cfg'.maintenancePct)
    (hh0 : 0 ≤ cfg.hospitalPct) (hh : cfg.hospitalPct ≤ cfg'.hospitalPct)
    (ht0 : 0 ≤ cfg.taxPct) (ht : cfg.taxPct ≤ cfg'.taxPct) :
    totalOf cfg q ≤ totalOf cfg' q' := by
  have hB : baseAmountOf cfg q ≤ baseAmountOf cfg' q' := by
    unfold baseAmountOf
    rw [hcost]
    exact roundHalfUp_mono (by nlinarith)
  have hB0 : 0 ≤ baseAmountOf cfg q :=
    roundHalfUp_nonneg (by nlinarith)
  have hBq : ((baseAmountOf cfg q : ℚ)) ≤ (baseAmountOf cfg' q' : ℚ) := by
    exact_mod_cast hB
  have hB0q : (0 : ℚ) ≤ (baseAmountOf cfg q : ℚ) := by exact_mod_cast hB0
  have surch : ∀ r r' : ℚ, 0 ≤ r → r ≤ r' →
      surchargeOf (baseAmountOf cfg q) r ≤
        surchargeOf (baseAmountOf cfg' q') r' := by
    intro r r' hr hrr
    exact roundHalfUp_mono (by nlinarith)
  have hS : subtotalOf cfg q ≤ subtotalOf cfg' q' := by
    unfold subtotalOf
    exact add_le_add (add_le_add (add_le_add (add_le_add hB
      (surch _ _ hd0 hd)) (surch _ _ ha0 ha)) (surch _ _ hm0 hm))
      (surch _ _ hh0 hh)
  have hS0 : 0 ≤ subtotalOf cfg q := by
    unfold subtotalOf
    have h1 := surchargeOf_nonneg hB0 hd0
    have h2 := surchargeOf_nonneg hB0 ha0
    have h3 := surchargeOf_nonneg hB0 hm0
    have h4 := surchargeOf_nonneg hB0 hh0
    omega
  have hSq : ((subtotalOf cfg q : ℚ)) ≤ (subtotalOf cfg' q' : ℚ) := by
    exact_mod_cast hS
  have hS0q : (0 : ℚ) ≤ (subtotalOf cfg q : ℚ) := by exact_mod_cast hS0
  have htax : taxAmountOf cfg q ≤ taxAmountOf cfg' q' := by
    unfold taxAmountOf
    exact roundHalfUp_mono (by nlinarith)
  exact add_le_add hS htax

/-- C4: increasing `oneWayKm` (all else fixed) never decreases the
returned `total`, and increasing any one of the five rates (all else
fixed) never decreases the returned `total`, for valid inputs
(non-negative cost per kilometer and distance). -/
theorem tariff_total_monotone :
    (∀ (req : TariffRequest) (cfg : TariffConfig) (q q' : ℚ)
        (b b' : TariffBreakdown), 0 ≤ cfg.costPerKm → 0 ≤ q → q ≤ q' →
        calculateAmbulanceTariff { req with oneWayKm := some q } cfg =
          Except.ok b →
        calculateAmbulanceTariff { req with oneWayKm := some q' } cfg =
          Except.ok b' →
        b.total ≤ b'.total) ∧
    (∀ (req : TariffRequest) (cfg : TariffConfig) (q d d' : ℚ)
        (b b' : TariffBreakdown), 0 ≤ cfg.costPerKm → 0 ≤ q → d ≤ d' →
        calculateAmbulanceTariff { req with oneWayKm := some q }
          { cfg with driverPct := d } = Except.ok b →
        calculateAmbulanceTariff { req with oneWayKm := some q }
          { cfg with driverPct := d' } = Except.ok b' →
        b.total ≤ b'.total) ∧
    (∀ (req : TariffRequest) (cfg : TariffConfig) (q d d' : ℚ)
        (b b' : TariffBreakdown), 0 ≤ cfg.costPerKm → 0 ≤ q → d ≤ d' →
        calculateAmbulanceTariff { req with oneWayKm := some q }
          { cfg with adminPct := d } = Except.ok b →
        calculateAmbulanceTariff { req with oneWayKm := some q }
          { cfg with adminPct := d' } = Except.ok b' →
        b.total ≤ b'.total) ∧
    (∀ (req : TariffRequest) (cfg : TariffConfig) (q d d' : ℚ)
        (b b' : TariffBreakdown), 0 ≤ cfg.costPerKm → 0 ≤ q → d ≤ d' →
        calculateAmbulanceTariff { req with oneWayKm := some q }
          { cfg with maintenancePct := d } = Except.ok b →
        calculateAmbulanceTariff { req with oneWayKm := some q }
          { cfg with maintenancePct := d' } = Except.ok b' →
        b.total ≤ b'.total) ∧
    (∀ (req : TariffRequest) (cfg : TariffConfig) (q d d' : ℚ)
        (b b' : TariffBreakdown), 0 ≤ cfg.costPerKm → 0 ≤ q → d ≤ d' →
        calculateAmbulanceTariff { req with oneWayKm := some q }
          { cfg with hospitalPct := d } = Except.ok b →
        calculateAmbulanceTariff { req with oneWayKm := some q }
          { cfg with hospitalPct := d' } = Except.ok b' →
        b.total ≤ b'.total) ∧
    (∀ (req : TariffRequest) (cfg : TariffConfig) (q d d' : ℚ)
        (b b' : TariffBreakdown), 0 ≤ cfg.costPerKm → 0 ≤ q → d ≤ d' →
        calculateAmbulanceTariff { req with oneWayKm := some q }
          { cfg with taxPct := d } = Except.ok b →
        calculateAmbulanceTariff { req with oneWayKm := some q }
          { cfg with taxPct := d' } = Except.ok b' →
        b.total ≤ b'.total) := by
  refine ⟨?_, ?_, ?_, ?_, ?_, ?_⟩
  case refine_1 =>
    intro req cfg q q' b b' hc hq0 hqq h1 h2
    obtain ⟨km1, hkm1, -, hv1, rfl⟩ :=
      (calculateAmbulanceTariff_ok_iff _ _ _).mp h1
    obtain ⟨km2, hkm2, -, hv2, rfl⟩ :=
      (calculateAmbulanceTariff_ok_iff _ _ _).mp h2
    obtain rfl : q = km1 := Option.some.inj hkm1
    obtain rfl : q' = km2 := Option.some.inj hkm2
    obtain ⟨e1, e2, e3, e4, e5, e6, e7, e8, e9, e10⟩ :=
      ratesValid_elim _ hv1
    exact totalOf_mono _ _ rfl hc hq0 hqq e1 (le_refl _) e3 (le_refl _)
      e5 (le_refl _) e7 (le_refl _) e9 (le_refl _)
  all_goals
    intro req cfg q d d' b b' hc hq0 hdd h1 h2
    obtain ⟨km1, hkm1, -, hv1, rfl⟩ :=
      (calculateAmbulanceTariff_ok_iff _ _ _).mp h1
    obtain ⟨km2, hkm2, -, hv2, rfl⟩ :=
      (calculateAmbulanceTariff_ok_iff _ _ _).mp h2
    obtain rfl : q = km1 := Option.some.inj hkm1
    obtain rfl : q = km2 := Option.some.inj hkm2
    obtain ⟨e1, e2, e3, e4, e5, e6, e7, e8, e9, e10⟩ :=
      ratesValid_elim _ hv1
    obtain ⟨f1, f2, f3, f4, f5, f6, f7, f8, f9, f10⟩ :=
      ratesValid_elim _ hv2
    exact totalOf_mono _ _ rfl hc hq0 (le_refl _)
      e1 (by first | exact hdd | exact le_refl _)
      e3 (by first | exact hdd | exact le_refl _)
      e5 (by first | exact hdd | exact le_refl _)
      e7 (by first | exact hdd | exact le_refl _)
      e9 (by first | exact hdd | exact le_refl _)

/-- Witness for C4: the total at 10 km is at least the total at 5 km. -/
theorem tariff_total_monotone_witness :
    (mkBreakdown { reqScenario with oneWayKm := some 5 } cfgScenario
        5).total ≤
      (mkBreakdown { reqScenario with oneWayKm := some 10 } cfgScenario
          10).total :=
  tariff_total_monotone.1 reqScenario cfgScenario 5 10 _ _
    (by norm_num [cfgScenario]) (by norm_num) (by norm_num)
    (scenario_ok 5 (by norm_num)) (scenario_ok 10 (by norm_num))

/-- A string with a non-empty left part stays non-empty under append. -/
theorem append_ne_empty_left (a b : String) (ha : a ≠ "") :
    a ++ b ≠ "" := by
  intro h
  apply ha
  have hl := congrArg String.length h
  rw [String.length_append] at hl
  have h0 : String.length "" = 0 := rfl
  rw [h0] at hl
  have ha0 : a.length = 0 := by omega
  cases a with
  | mk data =>
    cases data with
    | nil => rfl
    | cons c cs => simp [String.length] at ha0

/-- C8: `calculateDistance` never throws to its caller: in every failure
case (missing/empty API key, rejected fetch or JSON promise, non-OK HTTP
response, API status other than `'OK'`, missing or non-OK route element)
it resolves to a result with status `error`, `distanceKm = 0`,
`distanceText` and `durationText` `"N/A"`, an empty `mapsUrl` and a
non-empty `errorMessage`; in the success case it resolves with status
`success` and `distanceKm` equal to the API's meters divided by 1000. -/
theorem calculateDistance_contract (origin destination : String)
    (apiKey : Option String) (outcome : FetchOutcome) :
    (distanceFailureCase apiKey outcome →
      (calculateDistance origin destination apiKey outcome).status =
          DistStatus.error ∧
        (calculateDistance origin destination apiKey outcome).distanceKm =
          0 ∧
        (calculateDistance origin destination apiKey
              outcome).distanceText = "N/A" ∧
        (calculateDistance origin destination apiKey
              outcome).durationText = "N/A" ∧
        (calculateDistance origin destination apiKey outcome).mapsUrl =
          "" ∧
        ∃ m, (calculateDistance origin destination apiKey
              outcome).errorMessage = some m ∧ m ≠ "") ∧
    (∀ (key : String) (st : Nat) (data : DistanceApiData)
        (el : DistanceElement), apiKey = some key → key ≠ "" →
      outcome = FetchOutcome.response true st data → data.status = "OK" →
      firstElement data = some el → el.status = "OK" →
      (calculateDistance origin destination apiKey outcome).status =
          DistStatus.success ∧
        (calculateDistance origin destination apiKey outcome).distanceKm =
          el.distanceValue / 1000) := by
  constructor
  · intro hfail
    have hshape : ∃ m, m ≠ "" ∧
        calculateDistance origin destination apiKey outcome =
          distanceErrorResult m := by
      rcases apiKey with _ | key
      · exact ⟨"API key tidak dikonfigurasi. Hubungi administrator.",
          by decide, rfl⟩
      · by_cases hk : key = ""
        · subst hk
          exact ⟨"API key tidak dikonfigurasi. Hubungi administrator.",
            by decide, by simp [calculateDistance]⟩
        · rcases hfail with h | h | ⟨msg, rfl⟩ | ⟨st, data, rfl⟩ |
            ⟨st, data, rfl, hst⟩ | ⟨st, data, rfl, hok, hel⟩
          · exact absurd h (by simp)
          · exact absurd (Option.some.inj h) hk
          · refine ⟨jsStringOr (some msg) "Gagal menghitung jarak", ?_,
              by simp [calculateDistance, hk]⟩
            by_cases hm : msg = ""
            · simp only [jsStringOr, if_pos hm]
              decide
            · simp only [jsStringOr, if_neg hm]
              exact hm
          · exact ⟨"HTTP error! status: " ++ toString st,
              append_ne_empty_left _ _ (by decide),
              by simp [calculateDistance, hk]⟩
          · exact ⟨"API error: " ++ data.status ++ " - " ++
                jsStringOr data.errorMsg "Unknown error",
              append_ne_empty_left _ _ (append_ne_empty_left _ _
                (append_ne_empty_left _ _ (by decide))),
              by simp [calculateDistance, hk, hst]⟩
          · rcases hel with hnone | ⟨el, helem, hst2⟩
            · exact
                ⟨"Tidak dapat menghitung jarak. Periksa alamat yang dimasukkan.",
                  by decide, by simp [calculateDistance, hk, hok, hnone]⟩
            · exact
                ⟨"Tidak dapat menghitung jarak. Periksa alamat yang dimasukkan.",
                  by decide,
                  by simp [calculateDistance, hk, hok, helem, hst2]⟩
    obtain ⟨m, hm, heq⟩ := hshape
    rw [heq]
    exact ⟨rfl, rfl, rfl, rfl, rfl, m, rfl, hm⟩
  · intro key st data el hkey hk hout hst helem hstel
    subst hkey
    subst hout
    constructor <;> simp [calculateDistance, hk, hst, helem, hstel]

/-- Witness for C8: a missing API key yields the error-shaped result. -/
theorem calculateDistance_contract_witness :
    (calculateDistance "Jl. Merdeka No. 10" "RS UNIPDU Medika" none
        (FetchOutcome.thrown "boom")).distanceKm = 0 :=
  ((calculateDistance_contract "Jl. Merdeka No. 10" "RS UNIPDU Medika"
        none (FetchOutcome.thrown "boom")).1 (Or.inl rfl)).2.1

/-- C9: every handler that changes the services or prescriptions lists
re-establishes `totalBiaya = calculateTotal services prescriptions`. -/
theorem handlers_reestablish_totalBiaya :
    (∀ (v : Visit) (id nama : String) (harga quantity : ℚ)
        (category : String) (unit dokter notes : Option String),
      totalBiayaInvariant
        (handleAddService v id nama harga quantity category unit dokter
          notes)) ∧
    (∀ (v : Visit) (eid nama : String) (harga quantity : ℚ)
        (category : String) (unit dokter notes : Option String),
      totalBiayaInvariant
        (handleEditService v eid nama harga quantity category unit dokter
          notes)) ∧
    (∀ (v : Visit) (sid : String),
      totalBiayaInvariant (handleRemoveService v sid)) ∧
    (∀ (v : Visit) (id nama : String) (t : TariffBreakdown),
      totalBiayaInvariant (handleAddAmbulanceService v id nama t)) ∧
    (∀ (v : Visit) (id : String) (drugId : Option String)
        (namaObat : String) (qty : ℚ) (aturanPakai : Option String)
        (pricePerUnit : ℚ),
      totalBiayaInvariant
        (handleAddPrescription v id drugId namaObat qty aturanPakai
          pricePerUnit)) ∧
    (∀ (v : Visit) (pid : String),
      totalBiayaInvariant (handleRemovePrescription v pid)) :=
  ⟨fun _ _ _ _ _ _ _ _ _ => rfl, fun _ _ _ _ _ _ _ _ _ => rfl,
    fun _ _ => rfl, fun _ _ _ _ => rfl, fun _ _ _ _ _ _ _ => rfl,
    fun _ _ => rfl⟩

/-- A list unchanged by `dropWhile` has a head not satisfying the
predicate. -/
theorem head_false_of_dropWhile_eq_self {p : Char → Bool} {x : Char}
    {xs : List Char} (h : List.dropWhile p (x :: xs) = x :: xs) :
    p x = false := by
  by_contra hpx
  have hpx' : p x = true := by
    simpa using hpx
  rw [List.dropWhile_cons, if_pos hpx'] at h
  have hlen := congrArg List.length h
  have hle := (List.dropWhile_suffix (l := xs) p).length_le
  simp only [List.length_cons] at hlen
  omega

/-- A list whose head does not satisfy the predicate is unchanged by
`dropWhile`. -/
theorem dropWhile_eq_self_of_head {p : Char → Bool} {x : Char}
    (xs : List Char) (hx : p x = false) :
    List.dropWhile p (x :: xs) = x :: xs := by
  rw [List.dropWhile_cons, if_neg (by simp [hx])]

/-- The result of `jsTrim` has no leading whitespace left to drop. -/
theorem dropWhile_jsTrim (s : List Char) :
    List.dropWhile jsCharWhitespace (jsTrim s) = jsTrim s := by
  obtain ⟨r, hr⟩ :=
    List.rdropWhile_prefix jsCharWhitespace
      (List.dropWhile jsCharWhitespace s)
  cases ht : jsTrim s with
  | nil => simp
  | cons x xs =>
    have hm : List.dropWhile jsCharWhitespace
        (List.dropWhile jsCharWhitespace s) =
        List.dropWhile jsCharWhitespace s :=
      List.dropWhile_idempotent _ _
    rw [show List.rdropWhile jsCharWhitespace
        (List.dropWhile jsCharWhitespace s) = jsTrim s from rfl, ht]
      at hr
    rw [← hr] at hm
    rw [List.cons_append] at hm
    have hx : jsCharWhitespace x = false :=
      head_false_of_dropWhile_eq_self hm
    exact dropWhile_eq_self_of_head xs hx

/-- `jsTrim` is idempotent. -/
theorem jsTrim_idem (s : List Char) : jsTrim (jsTrim s) = jsTrim s := by
  show List.rdropWhile jsCharWhitespace
      (List.dropWhile jsCharWhitespace (jsTrim s)) = jsTrim s
  rw [dropWhile_jsTrim]
  show List.rdropWhile jsCharWhitespace
      (List.rdropWhile jsCharWhitespace
        (List.dropWhile jsCharWhitespace s)) = jsTrim s
  rw [List.rdropWhile_idempotent]
  rfl

/-- A `jsTrim`-fixed list is already fixed by the leading-whitespace
pass. -/
theorem dropWhile_of_jsTrim_eq_self {c : List Char}
    (hc : jsTrim c = c) :
    List.dropWhile jsCharWhitespace c = c := by
  have hsuf := List.dropWhile_suffix (l := c) jsCharWhitespace
  have hpre :=
    List.rdropWhile_prefix jsCharWhitespace
      (List.dropWhile jsCharWhitespace c)
  have hlen1 := hpre.length_le
  have hlen2 := hsuf.length_le
  have hlc : c.length ≤ (List.dropWhile jsCharWhitespace c).length := by
    conv_lhs => rw [← hc]
    exact hlen1
  exact hsuf.eq_of_length (le_antisymm hlen2 hlc)

/-- A `jsTrim`-fixed list is already fixed by the trailing-whitespace
pass. -/
theorem rdropWhile_of_jsTrim_eq_self {c : List Char}
    (hc : jsTrim c = c) :
    List.rdropWhile jsCharWhitespace c = c := by
  have h1 := dropWhile_of_jsTrim_eq_self hc
  calc List.rdropWhile jsCharWhitespace c
      = List.rdropWhile jsCharWhitespace
        (List.dropWhile jsCharWhitespace c) := by rw [h1]
    _ = c := hc

/-- Appending `", " ++ c` to a trimmed address yields a string `jsTrim`
leaves unchanged, provided `c` itself carries no surrounding whitespace
and is non-empty. -/
theorem jsTrim_append_city (a c : List Char) (hc : jsTrim c = c)
    (hcne : c ≠ []) :
    jsTrim (jsTrim a ++ ',' :: ' ' :: c) = jsTrim a ++ ',' :: ' ' :: c := by
  have hA : List.dropWhile jsCharWhitespace
      (jsTrim a ++ ',' :: ' ' :: c) = jsTrim a ++ ',' :: ' ' :: c := by
    cases ht : jsTrim a with
    | nil =>
      simpa using dropWhile_eq_self_of_head (' ' :: c)
        (show jsCharWhitespace ',' = false by decide)
    | cons x xs =>
      have hx : jsCharWhitespace x = false := by
        have := dropWhile_jsTrim a
        rw [ht] at this
        exact head_false_of_dropWhile_eq_self this
      simpa using dropWhile_eq_self_of_head
        (xs ++ ',' :: ' ' :: c) hx
  have hdc : List.dropWhile jsCharWhitespace c.reverse = c.reverse := by
    have h := rdropWhile_of_jsTrim_eq_self hc
    have h2 := congrArg List.reverse h
    rwa [List.rdropWhile, List.reverse_reverse] at h2
  obtain ⟨x, xs, hx⟩ : ∃ x xs, c.reverse = x :: xs := by
    cases hrc : c.reverse with
    | nil =>
      exact absurd (by simpa using congrArg List.reverse hrc) hcne
    | cons y ys => exact ⟨y, ys, rfl⟩
  have hxf : jsCharWhitespace x = false :=
    head_false_of_dropWhile_eq_self (hx ▸ hdc)
  have hrev : (jsTrim a ++ ',' :: ' ' :: c).reverse =
      x :: (xs ++ ' ' :: ',' :: (jsTrim a).reverse) := by
    simp [List.reverse_append, hx]
  have hB : List.rdropWhile jsCharWhitespace
      (jsTrim a ++ ',' :: ' ' :: c) = jsTrim a ++ ',' :: ' ' :: c := by
    rw [List.rdropWhile, hrev,
      dropWhile_eq_self_of_head _ hxf, ← hrev, List.reverse_reverse]
  show List.rdropWhile jsCharWhitespace
      (List.dropWhile jsCharWhitespace (jsTrim a ++ ',' :: ' ' :: c)) =
      jsTrim a ++ ',' :: ' ' :: c
  rw [hA, hB]

/-- C10: `formatAddressForAPI` is idempotent in its address argument for
a fixed default city with no surrounding whitespace: the first
application's output is already trimmed and always contains the city
case-insensitively. -/
theorem formatAddressForAPI_idem (a c : List Char) (hc : jsTrim c = c) :
    formatAddressForAPI (formatAddressForAPI a c) c =
      formatAddressForAPI a c := by
  cases hinc : jsIncludes (jsToLower (jsTrim a)) (jsToLower c) with
  | true =>
    have h1 : formatAddressForAPI a c = jsTrim a := by
      simp [formatAddressForAPI, hinc]
    rw [h1]
    simp [formatAddressForAPI, jsTrim_idem a, hinc]
  | false =>
    have hcne : c ≠ [] := by
      rintro rfl
      rw [show jsIncludes (jsToLower (jsTrim a)) (jsToLower []) =
          true from decide_eq_true (List.nil_infix)] at hinc
      simp at hinc
    have h1 : formatAddressForAPI a c = jsTrim a ++ ',' :: ' ' :: c := by
      simp [formatAddressForAPI, hinc]
    rw [h1]
    have h2 := jsTrim_append_city a c hc hcne
    have h3 : jsIncludes (jsToLower (jsTrim a ++ ',' :: ' ' :: c))
        (jsToLower c) = true := by
      have hsuf : jsToLower c <:+
          jsToLower (jsTrim a ++ ',' :: ' ' :: c) :=
        ⟨jsToLower (jsTrim a) ++ [Char.toLower ',', Char.toLower ' '],
          by simp [jsToLower]⟩
      exact decide_eq_true hsuf.isInfix
    simp [formatAddressForAPI, h2, h3]

/-- Witness for C10 at a raw address and the default city `Ponorogo`. -/
theorem formatAddressForAPI_idem_witness :
    formatAddressForAPI
        (formatAddressForAPI ("  Jl. Merdeka No. 10  ").data
          ("Ponorogo").data) ("Ponorogo").data =
      formatAddressForAPI ("  Jl. Merdeka No. 10  ").data
        ("Ponorogo").data :=
  formatAddressForAPI_idem _ _ (by decide)
